import Mathlib

/-!
Verification of the evmap-osm pipeline (query construction, response
parsing, record transformation, snapshot serialization).

The Rust source is shallowly embedded:
* machine integers (`u32`, `u64`, `usize`) become `Nat`, with explicit
  `% 2 ^ w` where overflow could occur;
* `f64` values (`version`, `lat`, `lon`) become `Rat`; the program never
  performs arithmetic on them, it only stores and forwards them, so any
  dense stand-in with decidable equality is faithful;
* JSON documents become an inductive `Json` value type; deserialization
  (`serde_json::from_slice` plus the derived `Deserialize` impls) becomes a
  function from `Json` to `Except PipelineError _` (the byte-level JSON
  lexer is the external `serde_json` library; field lookup, requiredness,
  optionality and typing of the derived impls are modelled exactly);
* `anyhow::Result` errors become the `PipelineError` inductive, one
  constructor per failure class of the pipeline;
* the wall-clock read (`SystemTime::now`) is passed in as a `now` argument.
-/

namespace EvmapOsm

/-- JSON values, as produced by `serde_json`.  Numbers are modelled as `Rat`
(the source never computes with them). -/
inductive Json where
  | null : Json
  | bool (b : Bool) : Json
  | num (q : Rat) : Json
  | str (s : String) : Json
  | arr (items : List Json) : Json
  | obj (fields : List (String × Json)) : Json

/-- Pipeline failure classes (§7 of the design): the `anyhow` error values
raised by `main.rs`, one constructor per distinguishable failure. -/
inductive PipelineError where
  | transportError (msg : String) : PipelineError
  | remoteError (status : Nat) : PipelineError
  | parseError (msg : String) : PipelineError
  | emptyDataset : PipelineError
  | clockError : PipelineError
  deriving DecidableEq

/-- The `struct Element` of src/overpass.rs lines 21–39: an element of the
Overpass response.  `lat`, `lon`, `changeset`, `user`, `uid` are
`#[serde(default)] Option` fields; `tags` is a string-to-string map,
kept here as an association list in input order. -/
structure Element where
  element_type : String
  id : Nat
  lat : Option Rat
  lon : Option Rat
  timestamp : String
  version : Nat
  changeset : Option Nat
  user : Option String
  uid : Option Nat
  tags : List (String × String)
  deriving DecidableEq

/-- The `struct OverpassResponse` of src/overpass.rs lines 11–18. -/
structure OverpassResponse where
  version : Rat
  generator : String
  elements : List Element
  deriving DecidableEq

/-- The `struct ProcessedElement` of src/overpass.rs lines 50–64: the reduced
output record.  It has no `changeset` and no `uid` field at all. -/
structure ProcessedElement where
  id : Nat
  lat : Option Rat
  lon : Option Rat
  timestamp : String
  element_type : String
  version : Nat
  user : Option String
  tags : List (String × String)
  deriving DecidableEq

/-- The `struct ProcessedOutput` of src/overpass.rs lines 42–47: the snapshot
envelope. -/
structure ProcessedOutput where
  timestamp : Nat
  count : Nat
  elements : List ProcessedElement
  deriving DecidableEq

/-- The `impl From<Element> for ProcessedElement` of src/overpass.rs (lines
66–79): field-for-field projection dropping `changeset` and `uid`. -/
def ProcessedElement.fromElement (elem : Element) : ProcessedElement :=
  { id := elem.id
    lat := elem.lat
    lon := elem.lon
    timestamp := elem.timestamp
    element_type := elem.element_type
    version := elem.version
    user := elem.user
    tags := elem.tags }

/-- The function `process_elements` of src/overpass.rs lines 130–141.  The wall-clock
read is the `now` argument (its only failure mode, `ClockError`, is
outside the data path). -/
def process_elements (now : Nat) (elements : List Element) : ProcessedOutput :=
  { timestamp := now
    count := elements.length
    elements := elements.map ProcessedElement.fromElement }

/-- The transform stage of `main` (src/main.rs lines 185–226): fail when
the parsed response holds zero elements, otherwise build the
`ProcessedOutput` from the elements in order. -/
def transform (now : Nat) (elements : List Element) : Except PipelineError ProcessedOutput :=
  if elements.isEmpty then .error .emptyDataset
  else .ok (process_elements now elements)

/-- The transport-level timeout configured on the HTTP client
(src/main.rs lines 153–158): `args.timeout_seconds as u64 + 30`, a `u64`
computation on a widened `u32` input. -/
def transport_timeout (timeout_seconds : Nat) : Nat :=
  (timeout_seconds + 30) % 2 ^ 64

/-- Keys of a JSON object (empty for non-objects). -/
def Json.objKeys : Json → List String
  | .obj fields => fields.map Prod.fst
  | _ => []

/-- Fields of a JSON object (empty for non-objects). -/
def Json.objFields : Json → List (String × Json)
  | .obj fields => fields
  | _ => []

/-- Whether a JSON value is `null`. -/
def Json.isNull : Json → Bool
  | .null => true
  | _ => false

/-- An optional numeric field under serde's
`#[serde(skip_serializing_if = "Option::is_none")]`: absent values emit no
key at all (never `null`). -/
def optNumField (key : String) : Option Rat → List (String × Json)
  | none => []
  | some q => [(key, .num q)]

/-- An optional string field under serde's
`#[serde(skip_serializing_if = "Option::is_none")]`. -/
def optStrField (key : String) : Option String → List (String × Json)
  | none => []
  | some s => [(key, .str s)]

/-- The derived `Serialize` impl of `ProcessedElement` (src/overpass.rs
lines 50–64): fields in declaration order, `element_type` renamed to
`type`, and `lat`/`lon`/`user` skipped when `None`. -/
def ProcessedElement.toJson (e : ProcessedElement) : Json :=
  .obj ([("id", .num (e.id : Rat))]
    ++ optNumField "lat" e.lat
    ++ optNumField "lon" e.lon
    ++ [("timestamp", .str e.timestamp),
        ("type", .str e.element_type),
        ("version", .num (e.version : Rat))]
    ++ optStrField "user" e.user
    ++ [("tags", .obj (e.tags.map fun kv => (kv.1, .str kv.2)))])

/-- The derived `Serialize` impl of `ProcessedOutput` (src/overpass.rs
lines 42–47): `timestamp`, `count`, `elements` in declaration order. -/
def ProcessedOutput.toJson (p : ProcessedOutput) : Json :=
  .obj [("timestamp", .num (p.timestamp : Rat)),
        ("count", .num (p.count : Rat)),
        ("elements", .arr (p.elements.map ProcessedElement.toJson))]

/-- Render a JSON number.  The integral values the snapshot envelope holds
render as their integer text; a non-integral `Rat` stand-in renders as a
fraction (never with whitespace, which is all the theorems below use). -/
def renderNum (q : Rat) : String :=
  if q.den = 1 then toString q.num else toString q.num ++ "/" ++ toString q.den

/-- Escape one character of a JSON string (quote, backslash and the
control characters that can appear in the inputs considered here). -/
def escapeChar (c : Char) : String :=
  if c = '"' then "\\\""
  else if c = '\\' then "\\\\"
  else if c = '\n' then "\\n"
  else if c = '\t' then "\\t"
  else if c = '\r' then "\\r"
  else String.singleton c

/-- Render a JSON string literal with quotes and escapes. -/
def renderStr (s : String) : String :=
  "\"" ++ String.join (s.data.map escapeChar) ++ "\""

mutual

/-- Compact JSON rendering: `serde_json::to_vec` / `to_string`
(src/main.rs lines 229–230) — no whitespace between tokens. -/
def renderCompact : Json → String
  | .null => "null"
  | .bool b => if b then "true" else "false"
  | .num q => renderNum q
  | .str s => renderStr s
  | .arr items => "[" ++ renderCompactList items ++ "]"
  | .obj fields => "\x7b" ++ renderCompactObj fields ++ "\x7d"

/-- Comma-separated compact rendering of array items. -/
def renderCompactList : List Json → String
  | [] => ""
  | [j] => renderCompact j
  | j :: rest => renderCompact j ++ "," ++ renderCompactList rest

/-- Comma-separated compact rendering of object fields. -/
def renderCompactObj : List (String × Json) → String
  | [] => ""
  | [(k, j)] => renderStr k ++ ":" ++ renderCompact j
  | (k, j) :: rest => renderStr k ++ ":" ++ renderCompact j ++ "," ++ renderCompactObj rest

end

/-- A newline followed by `level` single-space indentation steps. -/
def nlIndent (level : Nat) : String :=
  "\n" ++ String.join (List.replicate level " ")

mutual

/-- Modelled from the spec: "pretty-printed with single-space indentation"
— the `serde_json` pretty printer with a one-space indent unit (each
nesting level adds one space, fields and items on their own lines).  The
source under src/ contains no pretty printer; this definition exists only
to compare the spec's described serialization with the code's. -/
def renderPretty : Nat → Json → String
  | _, .null => "null"
  | _, .bool b => if b then "true" else "false"
  | _, .num q => renderNum q
  | _, .str s => renderStr s
  | _, .arr [] => "[]"
  | level, .arr (j :: rest) => "[" ++ renderPrettyList (level + 1) (j :: rest) ++ nlIndent level ++ "]"
  | _, .obj [] => "\x7b\x7d"
  | level, .obj (f :: rest) =>
      "\x7b" ++ renderPrettyObj (level + 1) (f :: rest) ++ nlIndent level ++ "\x7d"

/-- Pretty rendering of array items, one per line. -/
def renderPrettyList : Nat → List Json → String
  | _, [] => ""
  | level, [j] => nlIndent level ++ renderPretty level j
  | level, j :: rest => nlIndent level ++ renderPretty level j ++ "," ++ renderPrettyList level rest

/-- Pretty rendering of object fields, one per line, `": "` after keys. -/
def renderPrettyObj : Nat → List (String × Json) → String
  | _, [] => ""
  | level, [(k, j)] => nlIndent level ++ renderStr k ++ ": " ++ renderPretty level j
  | level, (k, j) :: rest =>
      nlIndent level ++ renderStr k ++ ": " ++ renderPretty level j ++ "," ++ renderPrettyObj level rest

end

/-- The bytes handed to the gzip encoder (src/main.rs lines 229–230):
`serde_json::to_vec(&processed)`, i.e. the compact rendering of the
snapshot envelope. -/
def serialize_snapshot (p : ProcessedOutput) : String :=
  renderCompact p.toJson

/-- The spec's described serialization: pretty-printed JSON with
single-space indentation (modelled from the spec, see `renderPretty`). -/
def serialize_snapshot_pretty (p : ProcessedOutput) : String :=
  renderPretty 0 p.toJson

/-- The gzip compression level configured in src/main.rs line 235:
`flate2::Compression::best()`, which is DEFLATE level 9, the maximum. -/
def gzipCompressionLevel : Nat := 9

/-- The fixed text of `build_query` before the embedded timeout value
(src/overpass.rs lines 82–95, exact whitespace of the `format!` string). -/
def queryPre : String := "\n        [out:json][timeout:"

/-- The fixed text of `build_query` after the embedded timeout value. -/
def querySuf : String :=
  "];\n        (\n          node[amenity=charging_station];\n          area[amenity=charging_station];\n          relation[amenity=charging_station];\n        );\n        out meta qt;\n        "

/-- The function `build_query` of src/overpass.rs lines 82–95: the Overpass QL query for
charging stations with the caller's timeout embedded. -/
def build_query (timeout_seconds : Nat) : String :=
  queryPre ++ toString timeout_seconds ++ querySuf

/-- Whether `pat` is an initial run of `l`. -/
def charsLeadWith : List Char → List Char → Bool
  | [], _ => true
  | _ :: _, [] => false
  | a :: as, b :: bs => a == b && charsLeadWith as bs

/-- Whether `pat` occurs contiguously in `l`. -/
def charsContain (pat : List Char) : List Char → Bool
  | [] => charsLeadWith pat []
  | b :: rest => charsLeadWith pat (b :: rest) || charsContain pat rest

/-- Whether `pat` occurs as a substring of `s`. -/
def strContains (s pat : String) : Bool :=
  charsContain pat.data s.data

/-- Modelled from the spec: in the Overpass query language, geometry
centroids are requested by the `center` output directive (`out center`);
a query requests centroids exactly when its text contains that directive
token.  The source's query builder emits `out meta qt;` (`qt` is quadtile
sort order), so this predicate is what the spec's "geometry centroids"
asks of the query text. -/
def requests_centroids (q : String) : Bool :=
  strContains q "center"

/-- Field lookup on a JSON object's field list (first occurrence), as the
derived `Deserialize` impls see the input. -/
def getField (fields : List (String × Json)) (key : String) : Option Json :=
  fields.lookup key

/-- Deserialize an `f64` field: any JSON number (no arithmetic is done on
it downstream, so the `Rat` stand-in is kept as is). -/
def asF64 : Json → Except PipelineError Rat
  | .num q => .ok q
  | _ => .error (.parseError "invalid value: expected f64")

/-- Deserialize a `u64` field: a non-negative integral JSON number below
`2 ^ 64`. -/
def asU64 : Json → Except PipelineError Nat
  | .num q =>
      if q.den = 1 ∧ 0 ≤ q.num ∧ q.num < 2 ^ 64 then .ok q.num.toNat
      else .error (.parseError "invalid value: expected u64")
  | _ => .error (.parseError "invalid value: expected u64")

/-- Deserialize a `u32` field: a non-negative integral JSON number below
`2 ^ 32`. -/
def asU32 : Json → Except PipelineError Nat
  | .num q =>
      if q.den = 1 ∧ 0 ≤ q.num ∧ q.num < 2 ^ 32 then .ok q.num.toNat
      else .error (.parseError "invalid value: expected u32")
  | _ => .error (.parseError "invalid value: expected u32")

/-- Deserialize a string field. -/
def asString : Json → Except PipelineError String
  | .str s => .ok s
  | _ => .error (.parseError "invalid value: expected string")

/-- Deserialize a `HashMap<String, String>` field: a JSON object whose
values are all strings, kept as an association list in input order. -/
def asTags : Json → Except PipelineError (List (String × String))
  | .obj fields =>
      fields.mapM fun kv =>
        match kv.2 with
        | .str s => .ok (kv.1, s)
        | _ => Except.error (.parseError "invalid value: expected string tag value")
  | _ => .error (.parseError "invalid value: expected tags object")

/-- A required struct field: absent means a `missing field` parse error
(no `#[serde(default)]` on it). -/
def reqField {α} (fields : List (String × Json)) (key : String)
    (p : Json → Except PipelineError α) : Except PipelineError α :=
  match getField fields key with
  | none => .error (.parseError ("missing field: " ++ key))
  | some v => p v

/-- An `#[serde(default)] Option<T>` struct field: absent or `null` means
`none`, any other value must deserialize as `T`. -/
def optField {α} (fields : List (String × Json)) (key : String)
    (p : Json → Except PipelineError α) : Except PipelineError (Option α) :=
  match getField fields key with
  | none => .ok none
  | some .null => .ok none
  | some v => do pure (some (← p v))

/-- The derived `Deserialize` impl of `Element` (src/overpass.rs lines
21–39): `type`, `id`, `timestamp`, `version` and `tags` are required;
`lat`, `lon`, `changeset`, `user` and `uid` are `#[serde(default)]`
optional; unknown keys are ignored (no `deny_unknown_fields`). -/
def parseElement (j : Json) : Except PipelineError Element :=
  match j with
  | .obj fields => do
      let ty ← reqField fields "type" asString
      let id ← reqField fields "id" asU64
      let lat ← optField fields "lat" asF64
      let lon ← optField fields "lon" asF64
      let ts ← reqField fields "timestamp" asString
      let ver ← reqField fields "version" asU32
      let ch ← optField fields "changeset" asU64
      let user ← optField fields "user" asString
      let uid ← optField fields "uid" asU64
      let tags ← reqField fields "tags" asTags
      pure { element_type := ty, id := id, lat := lat, lon := lon
             timestamp := ts, version := ver, changeset := ch
             user := user, uid := uid, tags := tags }
  | _ => .error (.parseError "invalid value: expected element object")

/-- The function `parse_response` of src/overpass.rs lines 125–127 at the JSON value
level: the derived `Deserialize` impl of `OverpassResponse` (lines 11–18).
`version`, `generator` and `elements` are all required; any element of
`elements` failing to deserialize fails the whole response; unknown
top-level keys are ignored.  (The byte-level JSON lexing in front of this
is the external `serde_json` library.) -/
def parse_response (j : Json) : Except PipelineError OverpassResponse :=
  match j with
  | .obj fields => do
      let version ← reqField fields "version" asF64
      let generator ← reqField fields "generator" asString
      let elements ← reqField fields "elements" fun v =>
        match v with
        | .arr items => items.mapM parseElement
        | _ => Except.error (.parseError "invalid value: expected element array")
      pure { version := version, generator := generator, elements := elements }
  | _ => .error (.parseError "invalid value: expected response object")

/-- The top-level keys the derived `OverpassResponse` deserializer reads. -/
def responseKeys : List String := ["version", "generator", "elements"]

/-- The keys the derived `Element` deserializer reads. -/
def elementKeys : List String :=
  ["type", "id", "lat", "lon", "timestamp", "version", "changeset", "user", "uid", "tags"]

end EvmapOsm

namespace EvmapOsm

/-- C1: for every non-empty element sequence, the transform stage returns a
snapshot whose `count` equals the input length and whose records preserve
input order: the record at every index carries the id of the source element
at the same index. -/
theorem transform_preserves_length_and_order (now : Nat) (elems : List Element)
    (h : elems ≠ []) :
    transform now elems = .ok (process_elements now elems) ∧
    (process_elements now elems).count = elems.length ∧
    ∀ i : Nat, ((process_elements now elems).elements[i]?.map ProcessedElement.id)
      = (elems[i]?.map Element.id) := by
  refine ⟨?_, rfl, ?_⟩
  · simp [transform, h]
  · intro i
    simp [process_elements, List.getElem?_map, ProcessedElement.fromElement]
    cases elems[i]? <;> simp [ProcessedElement.fromElement]

/-- Witness for C1 at a concrete one-element input. -/
theorem transform_preserves_length_and_order_witness :
    let e : Element :=
      { element_type := "node", id := 7, lat := some 47, lon := some 8
        timestamp := "2024-01-01T00:00:00Z", version := 3, changeset := none
        user := none, uid := none, tags := [("amenity", "charging_station")] }
    ([e] ≠ []) ∧
      transform 5 [e] = .ok (process_elements 5 [e]) ∧
      (process_elements 5 [e]).count = [e].length ∧
      ((process_elements 5 [e]).elements[0]?.map ProcessedElement.id)
        = ([e][0]?.map Element.id) := by
  intro e
  have h : [e] ≠ [] := by simp
  exact ⟨h, (transform_preserves_length_and_order 5 [e] h).1,
    (transform_preserves_length_and_order 5 [e] h).2.1,
    (transform_preserves_length_and_order 5 [e] h).2.2 0⟩

/-- C2: on an empty element sequence the transform stage fails with the
dedicated empty-dataset error, whatever the other top-level fields of the
parsed response hold, and that error is distinct from every parse error and
every transport error. -/
theorem transform_empty_fails (now : Nat) (resp : OverpassResponse)
    (h : resp.elements = []) :
    transform now resp.elements = .error .emptyDataset ∧
    (∀ msg : String, PipelineError.emptyDataset ≠ .parseError msg) ∧
    (∀ msg : String, PipelineError.emptyDataset ≠ .transportError msg) := by
  refine ⟨?_, ?_, ?_⟩
  · rw [h]; rfl
  · intro msg; exact fun hEq => PipelineError.noConfusion hEq
  · intro msg; exact fun hEq => PipelineError.noConfusion hEq

/-- Witness for C2 at a concrete response with empty elements. -/
theorem transform_empty_fails_witness :
    let resp : OverpassResponse := { version := 3/5, generator := "g", elements := [] }
    (resp.elements = []) ∧
      transform 11 resp.elements = .error .emptyDataset ∧
      PipelineError.emptyDataset ≠ .parseError "oops" ∧
      PipelineError.emptyDataset ≠ .transportError "down" := by
  intro resp
  have h : resp.elements = [] := rfl
  exact ⟨h, (transform_empty_fails 11 resp h).1,
    (transform_empty_fails 11 resp h).2.1 "oops",
    (transform_empty_fails 11 resp h).2.2 "down"⟩

/-- C8: for every `u32` timeout `t`, the transport timeout configured on
the HTTP client is exactly `t + 30`: it strictly exceeds `t`, and the
buffer is the fixed constant 30, independent of `t`. -/
theorem transport_timeout_fixed_buffer (t : Nat) (h : t < 2 ^ 32) :
    transport_timeout t = t + 30 ∧
    t < transport_timeout t ∧
    transport_timeout t - t = 30 := by
  have heq : transport_timeout t = t + 30 := by
    simp only [transport_timeout]
    omega
  exact ⟨heq, by omega, by omega⟩

/-- Inserting a pair with a fresh key anywhere in a field list does not
change any other key's lookup. -/
theorem getField_insert_of_ne (l₁ l₂ : List (String × Json)) (k k' : String)
    (v : Json) (h : k' ≠ k) :
    getField (l₁ ++ (k, v) :: l₂) k' = getField (l₁ ++ l₂) k' := by
  induction l₁ with
  | nil =>
      simp only [getField, List.nil_append, List.lookup_cons]
      have hb : (k' == k) = false := beq_eq_false_iff_ne.mpr h
      simp [hb]
  | cons p l₁ ih =>
      obtain ⟨a, b⟩ := p
      simp only [getField, List.cons_append, List.lookup_cons] at ih ⊢
      cases k' == a <;> simp [ih]

/-- A key that is not among a field list's keys looks up to nothing. -/
theorem getField_eq_none_of_not_mem (fs : List (String × Json)) (k : String)
    (h : k ∉ fs.map Prod.fst) : getField fs k = none := by
  induction fs with
  | nil => rfl
  | cons p fs ih =>
      obtain ⟨a, b⟩ := p
      simp only [List.map_cons, List.mem_cons, not_or] at h
      have hb : (k == a) = false := beq_eq_false_iff_ne.mpr h.1
      simp only [getField, List.lookup_cons, hb]
      exact ih h.2

/-- Inversion of a successful `Except` bind. -/
theorem except_bind_ok {α β : Type} {x : Except PipelineError α}
    {f : α → Except PipelineError β} {b : β}
    (h : Bind.bind x f = Except.ok b) : ∃ a, x = Except.ok a ∧ f a = Except.ok b := by
  cases x with
  | error e => exact Except.noConfusion h
  | ok a => exact ⟨a, rfl, h⟩

/-- A required field that deserialized successfully was present. -/
theorem mem_of_reqField_ok {α : Type} (fs : List (String × Json)) (k : String)
    (p : Json → Except PipelineError α) (a : α) (h : reqField fs k p = .ok a) :
    k ∈ fs.map Prod.fst := by
  by_contra hk
  rw [reqField, getField_eq_none_of_not_mem fs k hk] at h
  exact Except.noConfusion h

/-- The response deserializer reads its input only through the lookups of
its three keys. -/
theorem parse_response_congr (fs fs' : List (String × Json))
    (hv : getField fs' "version" = getField fs "version")
    (hg : getField fs' "generator" = getField fs "generator")
    (he : getField fs' "elements" = getField fs "elements") :
    parse_response (.obj fs') = parse_response (.obj fs) := by
  simp only [parse_response, reqField]
  rw [hv, hg, he]

/-- The element deserializer reads its input only through the lookups of
its ten keys. -/
theorem parseElement_congr (fs fs' : List (String × Json))
    (h1 : getField fs' "type" = getField fs "type")
    (h2 : getField fs' "id" = getField fs "id")
    (h3 : getField fs' "lat" = getField fs "lat")
    (h4 : getField fs' "lon" = getField fs "lon")
    (h5 : getField fs' "timestamp" = getField fs "timestamp")
    (h6 : getField fs' "version" = getField fs "version")
    (h7 : getField fs' "changeset" = getField fs "changeset")
    (h8 : getField fs' "user" = getField fs "user")
    (h9 : getField fs' "uid" = getField fs "uid")
    (h10 : getField fs' "tags" = getField fs "tags") :
    parseElement (.obj fs') = parseElement (.obj fs) := by
  simp only [parseElement, reqField, optField]
  rw [h1, h2, h3, h4, h5, h6, h7, h8, h9, h10]

/-- C4: the serialized output record of any source element carries no
`changeset`, no `uid` and no `editor_uid` key, whatever the source element
held in those fields. -/
theorem output_record_no_changeset_or_uid (elem : Element) :
    "changeset" ∉ ((ProcessedElement.fromElement elem).toJson).objKeys ∧
    "uid" ∉ ((ProcessedElement.fromElement elem).toJson).objKeys ∧
    "editor_uid" ∉ ((ProcessedElement.fromElement elem).toJson).objKeys := by
  rcases elem with ⟨ty, id, lat, lon, ts, ver, ch, user, uid, tags⟩
  cases lat <;> cases lon <;> cases user <;>
    simp [ProcessedElement.fromElement, ProcessedElement.toJson, Json.objKeys,
      optNumField, optStrField]

/-- C5: when `lat`, `lon` or `user` is absent on the source element, the
serialized output record omits that key entirely; no field of the record is
ever serialized as `null`; and a record with no position has neither a
`lat` nor a `lon` key (the serialized object's key list is exactly what a
parse of the serialized form yields). -/
theorem output_record_omits_absent_optionals (elem : Element) :
    (elem.lat = none → "lat" ∉ ((ProcessedElement.fromElement elem).toJson).objKeys) ∧
    (elem.lon = none → "lon" ∉ ((ProcessedElement.fromElement elem).toJson).objKeys) ∧
    (elem.user = none → "user" ∉ ((ProcessedElement.fromElement elem).toJson).objKeys) ∧
    (((ProcessedElement.fromElement elem).toJson).objFields.all fun kv => !kv.2.isNull) = true ∧
    (elem.lat = none → elem.lon = none →
      ("lat" ∉ ((ProcessedElement.fromElement elem).toJson).objKeys ∧
       "lon" ∉ ((ProcessedElement.fromElement elem).toJson).objKeys)) := by
  rcases elem with ⟨ty, id, lat, lon, ts, ver, ch, user, uid, tags⟩
  cases lat <;> cases lon <;> cases user <;>
    simp [ProcessedElement.fromElement, ProcessedElement.toJson, Json.objKeys,
      Json.objFields, Json.isNull, optNumField, optStrField]

/-- A source element with no position, no editor name, but a changeset and
an editor uid set. -/
def elemNoPos : Element :=
  { element_type := "way", id := 2, lat := none, lon := none, timestamp := "ts"
    version := 1, changeset := some 5, user := none, uid := some 9, tags := [] }

/-- Witness for C5 at a concrete element with no position. -/
theorem output_record_omits_absent_optionals_witness :
    (elemNoPos.lat = none) ∧ (elemNoPos.lon = none) ∧ (elemNoPos.user = none) ∧
    "lat" ∉ ((ProcessedElement.fromElement elemNoPos).toJson).objKeys ∧
    "lon" ∉ ((ProcessedElement.fromElement elemNoPos).toJson).objKeys ∧
    "user" ∉ ((ProcessedElement.fromElement elemNoPos).toJson).objKeys := by
  refine ⟨rfl, rfl, rfl, ?_, ?_, ?_⟩
  · exact (output_record_omits_absent_optionals elemNoPos).1 rfl
  · exact (output_record_omits_absent_optionals elemNoPos).2.1 rfl
  · exact (output_record_omits_absent_optionals elemNoPos).2.2.1 rfl

/-- C3 counterexample: at the positive timeout 900 the generated query does
not request geometry centroids — its text contains no `center` output
directive (`out meta qt;` requests metadata and quadtile ordering). -/
theorem build_query_no_centroids_at_900 :
    (0 < 900) ∧ requests_centroids (build_query 900) = false :=
  ⟨by norm_num, by decide⟩

/-- C3 as amended: for every positive timeout `t`, the query is the fixed
text with `t` embedded directly after `[out:json][timeout:`; it requests
node, area and relation features tagged `amenity=charging_station` in one
union batch, its output directive is `out meta qt;` (full metadata,
quadtile order), and no part of the fixed text requests geometry
centroids. -/
theorem build_query_structure (t : Nat) (_h : 0 < t) :
    build_query t = queryPre ++ toString t ++ querySuf ∧
    strContains queryPre "[out:json][timeout:" = true ∧
    charsLeadWith "];".data querySuf.data = true ∧
    strContains querySuf "node[amenity=charging_station];" = true ∧
    strContains querySuf "area[amenity=charging_station];" = true ∧
    strContains querySuf "relation[amenity=charging_station];" = true ∧
    strContains querySuf "out meta qt;" = true ∧
    requests_centroids queryPre = false ∧
    requests_centroids querySuf = false :=
  ⟨rfl, by decide, by decide, by decide, by decide, by decide, by decide,
    by decide, by decide⟩

/-- Witness for the amended C3 at the default timeout 900. -/
theorem build_query_structure_witness :
    (0 < 900) ∧
      (build_query 900 = queryPre ++ toString 900 ++ querySuf ∧
       strContains queryPre "[out:json][timeout:" = true ∧
       charsLeadWith "];".data querySuf.data = true ∧
       strContains querySuf "node[amenity=charging_station];" = true ∧
       strContains querySuf "area[amenity=charging_station];" = true ∧
       strContains querySuf "relation[amenity=charging_station];" = true ∧
       strContains querySuf "out meta qt;" = true ∧
       requests_centroids queryPre = false ∧
       requests_centroids querySuf = false) :=
  ⟨by norm_num, build_query_structure 900 (by norm_num)⟩

/-- A concrete one-record snapshot envelope. -/
def snapshotExample : ProcessedOutput :=
  { timestamp := 100, count := 1,
    elements := [{ id := 1, lat := none, lon := none, timestamp := "t"
                   element_type := "node", version := 3, user := none
                   tags := [("amenity", "charging_station")] }] }

/-- C7 counterexample: the bytes handed to the gzip encoder are not the
pretty-printed single-space-indented rendering — at a concrete snapshot
the two serializations differ. -/
theorem snapshot_serialization_not_pretty :
    serialize_snapshot snapshotExample ≠ serialize_snapshot_pretty snapshotExample := by
  decide

/-- C7 as amended: the snapshot envelope is serialized as compact JSON
(`serde_json::to_vec`, no whitespace between tokens) and the gzip stream
is configured at maximum compression level 9 (`Compression::best()`);
at the concrete snapshot the serialized bytes are exactly the compact
text. -/
theorem snapshot_serialized_compact_gzip_best :
    (∀ p : ProcessedOutput, serialize_snapshot p = renderCompact p.toJson) ∧
    gzipCompressionLevel = 9 ∧
    serialize_snapshot snapshotExample =
      "\x7b\"timestamp\":100,\"count\":1,\"elements\":[\x7b\"id\":1,\"timestamp\":\"t\",\"type\":\"node\",\"version\":3,\"tags\":\x7b\"amenity\":\"charging_station\"\x7d\x7d]\x7d" :=
  ⟨fun _ => rfl, rfl, by decide⟩

/-- The JSON value of `{"version":0.6,"generator":"g","elements":[]}`. -/
def respEmptyJson : Json :=
  .obj [("version", .num (3/5)), ("generator", .str "g"), ("elements", .arr [])]

/-- The JSON value of `{"version":0.6}`. -/
def respOnlyVersionJson : Json := .obj [("version", .num (3/5))]

/-- The JSON value of `{"version":0.6,"generator":"g"}` (no `elements`). -/
def respNoElementsJson : Json :=
  .obj [("version", .num (3/5)), ("generator", .str "g")]

/-- C6: parsing `{"version":0.6,"generator":"g","elements":[]}` succeeds
with zero elements; parsing `{"version":0.6}` fails with a parse error (as
does any input missing the `elements` field); and non-emptiness is the
separate check of the transform stage, which rejects the successfully
parsed empty dataset. -/
theorem parse_empty_ok_missing_elements_fails :
    parse_response respEmptyJson = .ok { version := 3/5, generator := "g", elements := [] } ∧
    parse_response respOnlyVersionJson = .error (.parseError "missing field: generator") ∧
    parse_response respNoElementsJson = .error (.parseError "missing field: elements") ∧
    transform 0 [] = .error .emptyDataset :=
  ⟨rfl, rfl, rfl, rfl⟩

/-- C9: appending or inserting a field with an unknown key — anywhere in
the top-level object or in an element object — never turns a successful
parse into a failure or changes its result. -/
theorem parse_ignores_unknown_fields :
    (∀ (fs₁ fs₂ : List (String × Json)) (k : String) (v : Json) (r : OverpassResponse),
        k ∉ responseKeys →
        parse_response (.obj (fs₁ ++ fs₂)) = .ok r →
        parse_response (.obj (fs₁ ++ (k, v) :: fs₂)) = .ok r) ∧
    (∀ (fs₁ fs₂ : List (String × Json)) (k : String) (v : Json) (e : Element),
        k ∉ elementKeys →
        parseElement (.obj (fs₁ ++ fs₂)) = .ok e →
        parseElement (.obj (fs₁ ++ (k, v) :: fs₂)) = .ok e) := by
  constructor
  · intro fs₁ fs₂ k v r hk h
    simp only [responseKeys, List.mem_cons, List.not_mem_nil, or_false, not_or] at hk
    rw [parse_response_congr (fs₁ ++ fs₂) (fs₁ ++ (k, v) :: fs₂)
      (getField_insert_of_ne fs₁ fs₂ k _ v (Ne.symm hk.1))
      (getField_insert_of_ne fs₁ fs₂ k _ v (Ne.symm hk.2.1))
      (getField_insert_of_ne fs₁ fs₂ k _ v (Ne.symm hk.2.2))]
    exact h
  · intro fs₁ fs₂ k v e hk h
    simp only [elementKeys, List.mem_cons, List.not_mem_nil, or_false, not_or] at hk
    rw [parseElement_congr (fs₁ ++ fs₂) (fs₁ ++ (k, v) :: fs₂)
      (getField_insert_of_ne fs₁ fs₂ k _ v (Ne.symm hk.1))
      (getField_insert_of_ne fs₁ fs₂ k _ v (Ne.symm hk.2.1))
      (getField_insert_of_ne fs₁ fs₂ k _ v (Ne.symm hk.2.2.1))
      (getField_insert_of_ne fs₁ fs₂ k _ v (Ne.symm hk.2.2.2.1))
      (getField_insert_of_ne fs₁ fs₂ k _ v (Ne.symm hk.2.2.2.2.1))
      (getField_insert_of_ne fs₁ fs₂ k _ v (Ne.symm hk.2.2.2.2.2.1))
      (getField_insert_of_ne fs₁ fs₂ k _ v (Ne.symm hk.2.2.2.2.2.2.1))
      (getField_insert_of_ne fs₁ fs₂ k _ v (Ne.symm hk.2.2.2.2.2.2.2.1))
      (getField_insert_of_ne fs₁ fs₂ k _ v (Ne.symm hk.2.2.2.2.2.2.2.2.1))
      (getField_insert_of_ne fs₁ fs₂ k _ v (Ne.symm hk.2.2.2.2.2.2.2.2.2))]
    exact h

/-- The element JSON fields with exactly the five required keys. -/
def elemFieldsMin : List (String × Json) :=
  [("type", .str "node"), ("id", .num 1),
   ("timestamp", .str "2024-01-01T00:00:00Z"), ("version", .num 3),
   ("tags", .obj [("amenity", .str "charging_station")])]

/-- The element those fields deserialize to. -/
def elemMin : Element :=
  { element_type := "node", id := 1, lat := none, lon := none
    timestamp := "2024-01-01T00:00:00Z", version := 3, changeset := none
    user := none, uid := none, tags := [("amenity", "charging_station")] }

/-- Witness for C9: a `remark` top-level field and a `note` element field
are ignored at concrete inputs. -/
theorem parse_ignores_unknown_fields_witness :
    ("remark" ∉ responseKeys) ∧
    parse_response (.obj ([("version", Json.num (3/5))] ++
        [("generator", Json.str "g"), ("elements", Json.arr [])]))
      = .ok { version := 3/5, generator := "g", elements := [] } ∧
    parse_response (.obj ([("version", Json.num (3/5))] ++ ("remark", Json.str "ok") ::
        [("generator", Json.str "g"), ("elements", Json.arr [])]))
      = .ok { version := 3/5, generator := "g", elements := [] } ∧
    ("note" ∉ elementKeys) ∧
    parseElement (.obj (elemFieldsMin ++ [])) = .ok elemMin ∧
    parseElement (.obj (elemFieldsMin ++ ("note", Json.str "n") :: [])) = .ok elemMin := by
  refine ⟨by decide, rfl, ?_, by decide, rfl, ?_⟩
  · exact (parse_ignores_unknown_fields).1 [("version", Json.num (3/5))]
      [("generator", Json.str "g"), ("elements", Json.arr [])] "remark" (Json.str "ok")
      _ (by decide) rfl
  · exact (parse_ignores_unknown_fields).2 elemFieldsMin [] "note" (Json.str "n")
      elemMin (by decide) rfl

/-- The element JSON fields of a full element missing only `timestamp`. -/
def elemFieldsNoTimestamp : List (String × Json) :=
  [("type", .str "node"), ("id", .num 2), ("lat", .num 47), ("lon", .num 8),
   ("version", .num 1), ("tags", .obj [])]

/-- C10: an element deserializes only if `type`, `id`, `timestamp`,
`version` and `tags` are all present (success implies their presence);
the five optional keys may all be absent without failure (the minimal
element parses); and one element missing a required key fails the parse of
the entire response. -/
theorem element_required_fields :
    (∀ (fs : List (String × Json)) (e : Element),
        parseElement (.obj fs) = .ok e →
        "type" ∈ fs.map Prod.fst ∧ "id" ∈ fs.map Prod.fst ∧
        "timestamp" ∈ fs.map Prod.fst ∧ "version" ∈ fs.map Prod.fst ∧
        "tags" ∈ fs.map Prod.fst) ∧
    parseElement (.obj elemFieldsMin) = .ok elemMin ∧
    parse_response (.obj [("version", .num (3/5)), ("generator", .str "g"),
        ("elements", .arr [.obj elemFieldsMin, .obj elemFieldsNoTimestamp])])
      = .error (.parseError "missing field: timestamp") := by
  refine ⟨?_, rfl, rfl⟩
  intro fs e h
  simp only [parseElement] at h
  obtain ⟨ty, hty, h⟩ := except_bind_ok h
  obtain ⟨idv, hid, h⟩ := except_bind_ok h
  obtain ⟨lat, _, h⟩ := except_bind_ok h
  obtain ⟨lon, _, h⟩ := except_bind_ok h
  obtain ⟨ts, hts, h⟩ := except_bind_ok h
  obtain ⟨ver, hver, h⟩ := except_bind_ok h
  obtain ⟨ch, _, h⟩ := except_bind_ok h
  obtain ⟨user, _, h⟩ := except_bind_ok h
  obtain ⟨uidv, _, h⟩ := except_bind_ok h
  obtain ⟨tags, htags, _⟩ := except_bind_ok h
  exact ⟨mem_of_reqField_ok _ _ _ _ hty, mem_of_reqField_ok _ _ _ _ hid,
    mem_of_reqField_ok _ _ _ _ hts, mem_of_reqField_ok _ _ _ _ hver,
    mem_of_reqField_ok _ _ _ _ htags⟩

/-- Witness for C10 at the minimal element. -/
theorem element_required_fields_witness :
    (parseElement (.obj elemFieldsMin) = .ok elemMin) ∧
    ("type" ∈ elemFieldsMin.map Prod.fst ∧ "id" ∈ elemFieldsMin.map Prod.fst ∧
     "timestamp" ∈ elemFieldsMin.map Prod.fst ∧ "version" ∈ elemFieldsMin.map Prod.fst ∧
     "tags" ∈ elemFieldsMin.map Prod.fst) :=
  ⟨rfl, (element_required_fields).1 elemFieldsMin elemMin rfl⟩

/-- Witness for C8 at the default timeout of 900 seconds. -/
theorem transport_timeout_fixed_buffer_witness :
    (900 < 2 ^ 32) ∧
      transport_timeout 900 = 930 ∧
      900 < transport_timeout 900 ∧
      transport_timeout 900 - 900 = 30 := by
  have h : (900 : Nat) < 2 ^ 32 := by norm_num
  exact ⟨h, (transport_timeout_fixed_buffer 900 h).1,
    (transport_timeout_fixed_buffer 900 h).2.1,
    (transport_timeout_fixed_buffer 900 h).2.2⟩

end EvmapOsm
